import Mathlib

/-!
Shallow embedding of the `databricks-mcp-server` repository
(`src/databricks_mcp_server/`), together with theorems settling the frozen
claims C1–C10 about it.

Conventions of the embedding:
* Python `None`-able fields become `Option`; Python truthiness of an optional
  value is `Option.isSome` (the repository never stores empty strings in the
  relevant fields, and an empty list is modelled as `[]`).
* Python `dict` values built by insertion are modelled by association lists
  with `pyDictInsert` / `pyDictOfPairs` / `pyDictUpdate`, which reproduce
  `dict`'s replace-in-place-or-append-at-end semantics.
* HTTP calls are modelled by oracles passed as explicit arguments: the
  response the remote service would give to the one request the code makes.
* Wall-clock time (`time.time()`) is a `ℚ` argument.
* A Python function that can raise becomes `Except`; the number of outbound
  token requests a call performs is returned alongside its result where a
  claim counts requests.
-/

namespace DatabricksMCP

/-! ### Python dict machinery

`dict(zip(keys, vals))` and `d.update(extra)` appear in `warehouse.py` and
`_databricks_client.py`.  A Python dict is an insertion-ordered map; inserting
an existing key replaces its value in place, a new key is appended. -/

/-- One Python dict insertion `d[k] = v`: replace in place if `k` is present
(a dict holds each key at most once, so replacing the first occurrence is
replacing the occurrence), else append at the end. -/
def pyDictInsert {α : Type} (d : List (String × α)) (k : String) (v : α) :
    List (String × α) :=
  match d with
  | [] => [(k, v)]
  | p :: ps => if p.1 == k then (k, v) :: ps else p :: pyDictInsert ps k v

/-- `dict(pairs)`: insert the pairs left to right into an empty dict. -/
def pyDictOfPairs {α : Type} (ps : List (String × α)) : List (String × α) :=
  ps.foldl (fun d p => pyDictInsert d p.1 p.2) []

/-- `d.update(extra)`: insert the pairs of `extra` left to right into `d`. -/
def pyDictUpdate {α : Type} (d extra : List (String × α)) :
    List (String × α) :=
  extra.foldl (fun acc p => pyDictInsert acc p.1 p.2) d

/-- The value the key `k` would have in `dict(ps)`: the LAST value paired with
`k` in `ps`, if any. -/
def lastVal {α : Type} (k : String) : List (String × α) → Option α
  | [] => none
  | p :: ps => (lastVal k ps).or (if p.1 == k then some p.2 else none)

theorem lookup_cons_key {α : Type} (a k : String) (b : α)
    (ps : List (String × α)) (h : k = a) :
    ((a, b) :: ps).lookup k = some b := by
  have hb : (k == a) = true := beq_iff_eq.2 h
  simp [List.lookup, hb]

theorem lookup_cons_ne_key {α : Type} (a k : String) (b : α)
    (ps : List (String × α)) (h : k ≠ a) :
    ((a, b) :: ps).lookup k = ps.lookup k := by
  have hb : (k == a) = false := beq_eq_false_iff_ne.2 h
  simp [List.lookup, hb]

theorem lookup_pyDictInsert_self {α : Type} (d : List (String × α))
    (k : String) (v : α) : (pyDictInsert d k v).lookup k = some v := by
  induction d with
  | nil => exact lookup_cons_key k k v [] rfl
  | cons p ps ih =>
    obtain ⟨a, b⟩ := p
    by_cases hak : a = k
    · have hb : (a == k) = true := beq_iff_eq.2 hak
      simp only [pyDictInsert, hb, if_true]
      exact lookup_cons_key k k v ps rfl
    · have hb : (a == k) = false := beq_eq_false_iff_ne.2 hak
      simp only [pyDictInsert, hb, Bool.false_eq_true, if_false]
      rw [lookup_cons_ne_key a k b _ (Ne.symm hak)]
      exact ih

theorem lookup_pyDictInsert_ne {α : Type} (d : List (String × α))
    (k k' : String) (v : α) (hne : k' ≠ k) :
    (pyDictInsert d k v).lookup k' = d.lookup k' := by
  induction d with
  | nil =>
    show ((k, v) :: []).lookup k' = List.lookup k' []
    rw [lookup_cons_ne_key k k' v [] hne]
  | cons p ps ih =>
    obtain ⟨a, b⟩ := p
    by_cases hak : a = k
    · have hb : (a == k) = true := beq_iff_eq.2 hak
      simp only [pyDictInsert, hb, if_true]
      rw [lookup_cons_ne_key k k' v ps hne,
        lookup_cons_ne_key a k' b ps (by rw [hak]; exact hne)]
    · have hb : (a == k) = false := beq_eq_false_iff_ne.2 hak
      simp only [pyDictInsert, hb, Bool.false_eq_true, if_false]
      by_cases hk' : k' = a
      · rw [lookup_cons_key a k' b _ hk', lookup_cons_key a k' b ps hk']
      · rw [lookup_cons_ne_key a k' b _ hk', lookup_cons_ne_key a k' b ps hk',
          ih]

theorem lookup_pyDictUpdate {α : Type} (k : String)
    (extra : List (String × α)) (d : List (String × α)) :
    (pyDictUpdate d extra).lookup k = (lastVal k extra).or (d.lookup k) := by
  induction extra generalizing d with
  | nil => simp [pyDictUpdate, lastVal]
  | cons p ps ih =>
    show (pyDictUpdate (pyDictInsert d p.1 p.2) ps).lookup k
        = ((lastVal k ps).or (if p.1 == k then some p.2 else none)).or
            (d.lookup k)
    rw [ih, Option.or_assoc]
    by_cases hpk : p.1 = k
    · have hb : (p.1 == k) = true := beq_iff_eq.2 hpk
      have h1 : (pyDictInsert d p.1 p.2).lookup k = some p.2 := by
        rw [hpk]; exact lookup_pyDictInsert_self d k p.2
      rw [h1]
      congr 1
      simp [hb]
    · have hb : (p.1 == k) = false := beq_eq_false_iff_ne.2 hpk
      rw [lookup_pyDictInsert_ne _ _ _ _ (Ne.symm hpk)]
      congr 1
      simp [hb, Option.none_or]

/-- Membership in the key list of a dict built by insertions. -/
theorem mem_keys_pyDictInsert {α : Type} (d : List (String × α))
    (k a : String) (v : α) :
    a ∈ (pyDictInsert d k v).map Prod.fst ↔ a ∈ d.map Prod.fst ∨ a = k := by
  induction d with
  | nil => simp [pyDictInsert]
  | cons p ps ih =>
    obtain ⟨c, b⟩ := p
    by_cases hck : c = k
    · subst hck
      simp [pyDictInsert]
      tauto
    · simp [pyDictInsert, hck, ih]
      tauto

theorem mem_keys_pyDictOfPairs_aux {α : Type} (ps : List (String × α))
    (d : List (String × α)) (a : String) :
    a ∈ (ps.foldl (fun d p => pyDictInsert d p.1 p.2) d).map Prod.fst ↔
      a ∈ d.map Prod.fst ∨ a ∈ ps.map Prod.fst := by
  induction ps generalizing d with
  | nil => simp
  | cons p ps ih =>
    simp only [List.foldl_cons, ih, mem_keys_pyDictInsert, List.map_cons,
      List.mem_cons]
    tauto

/-- The key set of `dict(ps)` is the set of first components of `ps`. -/
theorem mem_keys_pyDictOfPairs {α : Type} (ps : List (String × α))
    (a : String) :
    a ∈ (pyDictOfPairs ps).map Prod.fst ↔ a ∈ ps.map Prod.fst := by
  simpa using mem_keys_pyDictOfPairs_aux ps [] a

/-! ### `warehouse.py` — the statement execution state machine

`execute_query` submits the statement once (the submission response is the
oracle argument `resp`) and then enters `while True:` over that SAME response
object: the body never re-fetches the statement, so `resp` never changes. The
body either returns a result dict, or falls through and iterates again. We
model the body as `executeQueryBody` and the loop, cut at `fuel` iterations,
as `executeQueryLoop`; `executeQueryLoop fuel resp = none` means the loop has
not returned after `fuel` iterations. -/

/-- `databricks.sdk.service.sql.StatementState`. -/
inductive StatementState where
  | pending | running | succeeded | failed | canceled | closed
  deriving DecidableEq, Repr

/-- The `.value` of a `StatementState`, as interpolated by
`f"{resp.status.state.value}"`. -/
def StatementState.value : StatementState → String
  | .pending => "PENDING"
  | .running => "RUNNING"
  | .succeeded => "SUCCEEDED"
  | .failed => "FAILED"
  | .canceled => "CANCELED"
  | .closed => "CLOSED"

/-- `resp.status.error`: a service error payload with code and message. -/
structure ServiceError where
  error_code : String
  message : String
  deriving DecidableEq, Repr

/-- `resp.status`: statement state plus optional error payload. -/
structure StatementStatus where
  state : StatementState
  error : Option ServiceError
  deriving DecidableEq, Repr

/-- The parts of a `StatementResponse` that `execute_query` reads.
`manifest_columns` are the names of `resp.manifest.schema.columns` and
`data_array` is `resp.result.data_array` (`none` models `None`). Cell values
live in an arbitrary type `α`. -/
structure StatementResponse (α : Type) where
  statement_id : String
  status : Option StatementStatus
  manifest_columns : List String
  data_array : Option (List (List α))

/-- The dict `execute_query` returns: `{"state": ..., "data": ...}` or
`{"state": ..., "error": ...}`. -/
structure QueryResult (α : Type) where
  state : String
  data : Option (List (List (String × α)))
  error : Option String
  deriving DecidableEq

/-- One iteration of the `while True:` body of `execute_query`
(src/databricks_mcp_server/warehouse.py lines 32–47). `none` means the body
fell through without returning, i.e. the loop iterates again. -/
def executeQueryBody {α : Type} (resp : StatementResponse α) :
    Option (QueryResult α) :=
  match resp.status with
  | none => none
  | some st =>
    if st.state = StatementState.succeeded then
      match resp.data_array with
      | some rows =>
        if rows.isEmpty then
          some ⟨st.state.value, some [], none⟩
        else
          some ⟨st.state.value,
            some (rows.map fun row =>
              pyDictOfPairs (resp.manifest_columns.zip row)), none⟩
      | none => some ⟨st.state.value, some [], none⟩
    else
      match st.error with
      | some e =>
          some ⟨st.state.value, none, some (e.error_code ++ " - " ++ e.message)⟩
      | none => none

/-- The `while True:` loop of `execute_query`, cut after `fuel` iterations.
The loop body reads only `resp`, which is never reassigned, so every
iteration sees the same response. -/
def executeQueryLoop {α : Type} (fuel : Nat) (resp : StatementResponse α) :
    Option (QueryResult α) :=
  match fuel with
  | 0 => none
  | fuel + 1 =>
    match executeQueryBody resp with
    | some out => some out
    | none => executeQueryLoop fuel resp

/-! ### `config.py` — `BaseConfig`, token caching and header resolution

`BaseConfig._ensure_oauth_token` and the `headers` property
(src/databricks_mcp_server/config.py lines 161–209).  `time.time()` becomes
the `now : ℚ` argument; the token endpoint becomes the `tokenEndpoint`
oracle: the response the one outbound POST of this call would receive.
Alongside its result, each function returns how many token requests it
issued (0 or 1), which is what claims C4 and C5 count. -/

/-- The JSON body of a token-endpoint response: `access_token` (`none` models
both a missing key and a falsy value, which the code treats alike) and the
optional `expires_in`. -/
structure TokenBody where
  access_token : Option String
  expires_in : Option ℚ
  deriving DecidableEq

/-- A token-endpoint HTTP response: `statusOk = false` models a non-2xx
status, on which `resp.raise_for_status()` raises. -/
structure TokenEndpointResponse where
  statusOk : Bool
  body : TokenBody
  deriving DecidableEq

/-- The fields of `BaseConfig` that `_ensure_oauth_token` and `headers`
read or write.  `Option` fields model Python `None`; the code only ever
tests them for truthiness. -/
structure BaseConfig where
  host : Option String
  account_id : Option String
  pat_token : Option String
  client_id : Option String
  client_secret : Option String
  oauth_token_url : Option String
  oauth_scope : Option String
  access_token : Option String
  token_expires_at : Option ℚ
  deriving DecidableEq

/-- The `# request a new token` tail of `_ensure_oauth_token`: POST to the
token endpoint (whose answer is `resp`), `raise_for_status`, extract
`access_token`, and cache the token with
`token_expires_at = now + expires_in - 10` — set only when `expires_in` is
present and truthy, otherwise `token_expires_at` keeps its previous value. -/
def oauthTokenRequest (cfg : BaseConfig) (now : ℚ)
    (resp : TokenEndpointResponse) : Except String (BaseConfig × Nat) :=
  if ¬ resp.statusOk then
    .error "HTTPError"
  else
    match resp.body.access_token with
    | none => .error "token endpoint did not return access_token"
    | some tk =>
      let expires_at :=
        match resp.body.expires_in with
        | some ei =>
          -- `if expires_in:` … `float(expires_in)` … `if expires_val:`
          if ei ≠ 0 then some (now + ei - 10) else cfg.token_expires_at
        | none => cfg.token_expires_at
      .ok ({ cfg with access_token := some tk,
                      token_expires_at := expires_at }, 1)

/-- `BaseConfig._ensure_oauth_token(self)` at wall-clock time `now`, with the
token endpoint answering `resp`.  Returns the updated config and the number
of token requests issued, or the `ValueError`/HTTP-error message raised.
The cached token is reused only when `access_token` and `token_expires_at`
are both truthy and `time.time() < token_expires_at`. -/
def ensure_oauth_token (cfg : BaseConfig) (now : ℚ)
    (resp : TokenEndpointResponse) : Except String (BaseConfig × Nat) :=
  if cfg.pat_token.isSome then
    .ok (cfg, 0)
  else if ¬ (cfg.client_id.isSome ∧ cfg.client_secret.isSome ∧
      cfg.oauth_token_url.isSome) then
    .error "OAuth token config missing client_id/secret or token URL"
  else
    match cfg.access_token, cfg.token_expires_at with
    | some _, some e =>
      if now < e then .ok (cfg, 0) else oauthTokenRequest cfg now resp
    | _, _ => oauthTokenRequest cfg now resp

/-- The `BaseConfig.headers` property (`resolve()` in the spec's terms): the
authorization headers, the possibly-updated config, and the number of token
requests issued. -/
def headersResolve (cfg : BaseConfig) (now : ℚ)
    (resp : TokenEndpointResponse) :
    Except String ((List (String × String)) × BaseConfig × Nat) :=
  match cfg.pat_token with
  | some p =>
    .ok ([("Authorization", "Bearer " ++ p),
          ("Content-Type", "application/json")], cfg, 0)
  | none =>
    match ensure_oauth_token cfg now resp with
    | .error e => .error e
    | .ok (cfg', n) =>
      match cfg'.access_token with
      | some t =>
        .ok ([("Authorization", "Bearer " ++ t),
              ("Content-Type", "application/json")], cfg', n)
      | none => .error "No authentication token available to build headers"

/-! ### `_databricks_client.py` — `DatabricksClient.request`

`request` builds the URL from the configured host, takes the config headers
and merges caller-supplied headers over them with `req_headers.update(headers)`
(src/databricks_mcp_server/_databricks_client.py lines 76–97).  We model the
outgoing request's URL and headers; the transport itself is external. -/

/-- The outgoing HTTP request `DatabricksClient.request` hands to
`requests.request`: its URL and its headers. -/
structure OutgoingRequest where
  url : String
  req_headers : List (String × String)
  deriving DecidableEq

/-- `DatabricksClient.request(method, endpoint, ..., headers=caller)`:
host check, header resolution through the config, and the caller-header
merge.  `caller = none` models omitting the `headers` argument. -/
def clientRequest (cfg : BaseConfig) (now : ℚ)
    (tokResp : TokenEndpointResponse) (endpoint : String)
    (caller : Option (List (String × String))) :
    Except String OutgoingRequest :=
  match cfg.host with
  | none => .error "DATABRICKS_HOST is not configured"
  | some h =>
    match headersResolve cfg now tokResp with
    | .error e => .error e
    | .ok (baseHeaders, _, _) =>
      let merged :=
        match caller with
        | some extra => pyDictUpdate baseHeaders extra
        | none => baseHeaders
      .ok ⟨h ++ endpoint, merged⟩

/-! ### `utils.py` — the rendering pipeline

Structures mirror the SDK objects the formatter reads; `Option` fields model
Python `None` (and `or`-defaulting).  Optional lists (`columns`,
`table_constraints`) are modelled as plain lists, `[]` covering both `None`
and an empty list — the code only tests their truthiness, which agrees. -/

/-- `ColumnInfo` as read by `_format_column_info`. -/
structure ColumnInfoD where
  name : String
  type_text : String
  nullable : Bool
  comment : Option String
  deriving DecidableEq

/-- `| name | type | nullable | comment |` row
(src/databricks_mcp_server/utils.py lines 8–21). -/
def format_column_info (column : ColumnInfoD) : String :=
  "| " ++ column.name ++ " | " ++ column.type_text ++ " | "
    ++ (if column.nullable then "TRUE" else "FALSE") ++ " | "
    ++ column.comment.getD "" ++ " |"

/-- `_format_columns` (utils.py lines 24–46). -/
def format_columns (columns : List ColumnInfoD) : String :=
  if columns.isEmpty then
    "No columns defined."
  else
    String.intercalate "\n"
      (["| Column | Type | Nullable | Comment |",
        "|--------|------|----------|---------|"]
        ++ columns.map format_column_info)

/-- `PrimaryKeyConstraint`. -/
structure PrimaryKeyConstraintD where
  name : String
  child_columns : List String
  timeseries_columns : Option (List String)
  rely : Option Bool
  deriving DecidableEq

/-- `ForeignKeyConstraint`. -/
structure ForeignKeyConstraintD where
  name : String
  child_columns : List String
  parent_table : String
  parent_columns : List String
  rely : Option Bool
  deriving DecidableEq

/-- `NamedTableConstraint`. -/
structure NamedTableConstraintD where
  name : String
  deriving DecidableEq

/-- `TableConstraint`: at most one of the three variants is populated. -/
structure TableConstraintD where
  primary_key_constraint : Option PrimaryKeyConstraintD
  foreign_key_constraint : Option ForeignKeyConstraintD
  named_table_constraint : Option NamedTableConstraintD
  deriving DecidableEq

/-- `", ".join(cols) if len(cols) > 1 else cols[0]` — raises `IndexError`
when the column list is empty. -/
def colsDisplay (cols : List String) : Except String String :=
  if cols.length > 1 then
    .ok (String.intercalate ", " cols)
  else
    match cols with
    | c :: _ => .ok c
    | [] => .error "IndexError"

/-- `"TRUE" if rely is True else ("FALSE" if rely is False else "UNKNOWN")`. -/
def relyDisplay : Option Bool → String
  | some true => "TRUE"
  | some false => "FALSE"
  | none => "UNKNOWN"

/-- One iteration of the constraint loop in `_format_table_constraints`
(utils.py lines 125–156): `none` means the iteration appended no row (no
variant populated). -/
def constraintRow (constraint : TableConstraintD) :
    Except String (Option String) :=
  match constraint.primary_key_constraint with
  | some pk =>
    match colsDisplay pk.child_columns with
    | .error e => .error e
    | .ok cols_str =>
      let details :=
        match pk.timeseries_columns with
        | some (t :: ts) =>
          "timeseries_columns=" ++ String.intercalate ", " (t :: ts)
        | _ => "N/A"
      .ok (some ("| " ++ pk.name ++ " | PRIMARY_KEY | " ++ cols_str ++ " | "
        ++ details ++ " | " ++ relyDisplay pk.rely ++ " |"))
  | none =>
    match constraint.foreign_key_constraint with
    | some fk =>
      match colsDisplay fk.child_columns with
      | .error e => .error e
      | .ok cols_str =>
        let parent_str := "references " ++ fk.parent_table ++ "("
          ++ String.intercalate ", " fk.parent_columns ++ ")"
        .ok (some ("| " ++ fk.name ++ " | FOREIGN_KEY | " ++ cols_str ++ " | "
          ++ parent_str ++ " | " ++ relyDisplay fk.rely ++ " |"))
    | none =>
      match constraint.named_table_constraint with
      | some nt =>
        .ok (some ("| " ++ nt.name ++ " | NAMED_CONSTRAINT | N/A | N/A | N/A |"))
      | none => .ok none

/-- The constraint rows accumulated by the loop. -/
def constraintRows : List TableConstraintD → Except String (List String)
  | [] => .ok []
  | c :: cs =>
    match constraintRow c with
    | .error e => .error e
    | .ok r =>
      match constraintRows cs with
      | .error e => .error e
      | .ok rs => .ok (r.toList ++ rs)

/-- `_format_table_constraints` (utils.py lines 108–158). -/
def format_table_constraints (constraints : List TableConstraintD) :
    Except String String :=
  if constraints.isEmpty then
    .ok "No constraints"
  else
    match constraintRows constraints with
    | .error e => .error e
    | .ok rows =>
      .ok (String.intercalate "\n"
        (["| Constraint Name | Type | Columns | Details | Rely |",
          "|---|---|---|---|---|"] ++ rows))

/-- The nested `tableInfo` fragment of a lineage edge; missing name
components are the empty string (the code reads them with
`.get(key, "")`). -/
structure LineageTableRefD where
  catalog_name : String
  schema_name : String
  name : String
  deriving DecidableEq

/-- One upstream/downstream entry: `entry.get("tableInfo")`. -/
structure LineageEdgeD where
  tableInfo : Option LineageTableRefD
  deriving DecidableEq

/-- The lineage dict handed to the formatter: the endpoint returns either an
empty dict (falsy) or a dict carrying `upstreams`/`downstreams` lists (each
read with `.get(key, [])`).  `emptyDict` is also what the buggy default-path
of `format_table_info` fabricates (`{}`). -/
inductive LineageDictD where
  | emptyDict
  | withEdges (upstreams downstreams : List LineageEdgeD)
  deriving DecidableEq

/-- `_extract_table_name` (utils.py lines 67–77). -/
def extractTableName : Option LineageTableRefD → Option String
  | none => none
  | some t =>
    if t.catalog_name ≠ "" ∧ t.schema_name ≠ "" ∧ t.name ≠ "" then
      some (t.catalog_name ++ "." ++ t.schema_name ++ "." ++ t.name)
    else
      none

/-- `_format_lineage_info` (utils.py lines 49–105). -/
def format_lineage_info (lineage : LineageDictD) : String :=
  match lineage with
  | .emptyDict => "No lineage information"
  | .withEdges upstreams downstreams =>
    let upSections : List String :=
      if upstreams.isEmpty then []
      else
        let upstream_tables :=
          upstreams.filterMap fun u => extractTableName u.tableInfo
        if upstream_tables.isEmpty then []
        else
          ["**Upstream Tables:** " ++ String.intercalate ", "
            (upstream_tables.map fun t => "`" ++ t ++ "`")]
    let downSections : List String :=
      if downstreams.isEmpty then []
      else
        let downstream_tables :=
          downstreams.filterMap fun d => extractTableName d.tableInfo
        if downstream_tables.isEmpty then []
        else
          ["**Downstream Tables:** " ++ String.intercalate ", "
            (downstream_tables.map fun t => "`" ++ t ++ "`")]
    let sections := upSections ++ downSections
    if sections.isEmpty then "" else String.intercalate "\n" sections

/-- `TableInfo` as read by the formatters.  `table_type` and
`data_source_format` carry the `.value` string of the SDK enum when present;
when `None`, `x or "UNKNOWN"` produces a plain string and the subsequent
`.value` access raises `AttributeError`. -/
structure TableInfoD where
  full_name : String
  catalog_name : String
  schema_name : String
  name : String
  table_type : Option String
  data_source_format : Option String
  comment : Option String
  columns : List ColumnInfoD
  table_constraints : List TableConstraintD
  deriving DecidableEq

/-- `_format_single_table` (utils.py lines 161–208).  Its true signature has
exactly two parameters, `table` and `lineage`. -/
def format_single_table (table : TableInfoD) (lineage : LineageDictD) :
    Except String String :=
  match table.table_type, table.data_source_format with
  | some tt, some ds =>
    let headLines : List String :=
      ["## Table Info",
       "**Name:** `" ++ table.full_name ++ "`",
       "**Type:** `" ++ tt ++ "`",
       "**Data Format:** `" ++ ds ++ "`",
       "**Description:** " ++ table.comment.getD "No description",
       ""]
    let schemaLines : List String :=
      if table.columns.isEmpty then []
      else ["### Schema", format_columns table.columns, ""]
    match format_table_constraints table.table_constraints with
    | .error e => .error e
    | .ok constraints_section =>
      let constraintLines : List String :=
        if constraints_section = "" then []
        else ["### Constraints", constraints_section, ""]
      let lineage_section := format_lineage_info lineage
      let lineageLines : List String :=
        if lineage_section = "" then []
        else ["### Lineage", lineage_section, ""]
      .ok (String.intercalate "\n"
        (headLines ++ schemaLines ++ constraintLines ++ lineageLines))
  | _, _ =>
    .error "AttributeError: str object has no attribute value"

/-! ### `format_table_info` (utils.py lines 211–280) and its mutable default

`def format_table_info(table_info, lineage_info=[], extended=False)` — the
default `[]` is ONE list object created at function-definition time and
shared by every call that omits the argument.  We model its current contents
as explicit state (`shared`), threaded through calls; `lineage_arg = none`
models omitting the argument, `some l` passing a list (whose final contents
are not observed by any caller in the repository).

In the `extended` branch the source calls
`_format_single_table(table, lineage, extended)` — three arguments against a
two-parameter function — so every iteration raises `TypeError` inside the
`try` and takes the `except` fallback, dumping the raw descriptor. -/

/-- The `TypeError` message CPython produces for the 3-vs-2 arity mismatch. -/
def arityErrorMsg : String :=
  "_format_single_table() takes 2 positional arguments but 3 were given"

/-- `f"\x7btable.as_dict()\x7d"` in the fallback dump.  The exact repr of the
SDK object is opaque here (no claim constrains it); we render its
identifying content. -/
def TableInfoD.asDictDisplay (t : TableInfoD) : String :=
  "as_dict of " ++ t.full_name

/-- `f"\x7blineage_info\x7d"` in the fallback dump — note the source
interpolates the WHOLE lineage list, not the current item.  As above, its
exact repr is opaque; no claim constrains it. -/
def lineageListDisplay (l : List LineageDictD) : String :=
  "lineage_info list of length " ++ toString l.length

/-- The lines one iteration of the `extended` loop appends: the `except`
fallback (reached on every iteration, see above) followed by the `---`
separator when `idx < len(table_info)`. -/
def extendedItemLines (total : Nat) (allLineage : List LineageDictD)
    (idx : Nat) (table : TableInfoD) : List String :=
  ["Error parsing table info `" ++ table.full_name ++ "`: " ++ arityErrorMsg,
   "",
   "Table Info:",
   table.asDictDisplay,
   "",
   "Lineage Info:",
   lineageListDisplay allLineage,
   ""]
  ++ (if idx < total then ["---", ""] else [])

/-- The `for idx, (table, lineage) in enumerate(zip(...), 1):` loop. -/
def extendedLoop (total : Nat) (allLineage : List LineageDictD) :
    Nat → List (TableInfoD × LineageDictD) → List String
  | _, [] => []
  | idx, (table, _) :: rest =>
    extendedItemLines total allLineage idx table
      ++ extendedLoop total allLineage (idx + 1) rest

/-- The document `format_table_info` builds once the effective lineage list
is settled (`table_info` is non-empty on every path reaching this). -/
def buildTableDoc (table_info : List TableInfoD)
    (lineage_info : List LineageDictD) (extended : Bool) : String :=
  if extended then
    String.intercalate "\n"
      (["# Table Information", ""]
        ++ extendedLoop table_info.length lineage_info 1
            (table_info.zip lineage_info))
  else
    let headName :=
      match table_info with
      | [] => ""
      | t :: _ => t.catalog_name ++ "." ++ t.schema_name
    String.intercalate "\n"
      (["# List of tables in `" ++ headName ++ "`",
        "",
        "*Number of Tables*: " ++ toString table_info.length,
        "",
        "## Table names:",
        ""]
        ++ [String.intercalate ", " (table_info.map (fun t => t.name))]
        ++ [""])

/-- The body of `format_table_info` acting on the EFFECTIVE lineage list
object (the default or the caller's).  Returns the document or the
`AssertionError`, together with the final contents of that list object
(mutated by `lineage_info.extend(...)` on the falsy branch). -/
def formatTableInfoCore (table_info : List TableInfoD)
    (lineage_info : List LineageDictD) (extended : Bool) :
    Except String String × List LineageDictD :=
  if table_info.isEmpty then
    (.ok "**No tables found**", lineage_info)
  else if ¬ lineage_info.isEmpty then
    if table_info.length = lineage_info.length then
      (.ok (buildTableDoc table_info lineage_info extended), lineage_info)
    else
      (.error "AssertionError: table info and lineage info length mismatch",
       lineage_info)
  else
    let extendedList :=
      lineage_info ++ table_info.map (fun _ => LineageDictD.emptyDict)
    (.ok (buildTableDoc table_info extendedList extended), extendedList)

/-- `format_table_info` with the shared mutable default made explicit:
`shared` is the default list's contents before the call; the second
component of the result is its contents after the call (a call passing its
own list mutates THAT list, leaving the default untouched). -/
def format_table_info (shared : List LineageDictD)
    (table_info : List TableInfoD)
    (lineage_arg : Option (List LineageDictD)) (extended : Bool) :
    Except String String × List LineageDictD :=
  match lineage_arg with
  | none => formatTableInfoCore table_info shared extended
  | some l => ((formatTableInfoCore table_info l extended).1, shared)

/-! ### `unitycatalog.py` and `lineage.py`

The SDK/REST fetches become oracle arguments: `listSchemas`, `listTables`,
`tablesGet` give what the catalog would return; `lineageGet` is
`get_table_lineage`, returning the decoded lineage dict or the exception a
failed fetch raises (`client.do` is called with `raise_for_status=True`). -/

/-- The fields of `SchemaInfo` relevant to a schema listing. -/
structure SchemaInfoD where
  name : String
  comment : Option String
  deriving DecidableEq

/-- `get_schemas_in_catalog` (src/databricks_mcp_server/unitycatalog.py
lines 18–27): fetches the schema list, then sets `output = None` and returns
it — the formatting step is absent. -/
def get_schemas_in_catalog (listSchemas : String → List SchemaInfoD)
    (catalog_name : String) : Option String :=
  let schema_info := (listSchemas catalog_name).map (fun schema => schema)
  none

/-- `get_tables_in_schema` (unitycatalog.py lines 30–39): lists the tables
and renders them in summary mode, passing a FRESH empty `lineage_info=[]`
(so the shared default is untouched). -/
def get_tables_in_schema (listTables : String → String → List TableInfoD)
    (shared : List LineageDictD) (catalog_name schema_name : String) :
    Except String String × List LineageDictD :=
  let table_info := (listTables catalog_name schema_name).map (fun t => t)
  format_table_info shared table_info (some []) false

/-- The `for table_name in table_names:` loop of `get_table_info`: fetch
descriptor and lineage per table, appending to two lists; a raised lineage
exception aborts the loop (and the whole call). -/
def collectTableInfo (tablesGet : String → TableInfoD)
    (lineageGet : String → Except String LineageDictD) :
    List String → Except String (List TableInfoD × List LineageDictD)
  | [] => .ok ([], [])
  | n :: ns =>
    let tableInfo := tablesGet n
    match lineageGet n with
    | .error e => .error e
    | .ok lineageInfo =>
      match collectTableInfo tablesGet lineageGet ns with
      | .error e => .error e
      | .ok (ts, ls) => .ok (tableInfo :: ts, lineageInfo :: ls)

/-- `get_table_info` (unitycatalog.py lines 42–57): the fetch loop followed
by `format_table_info(..., extended=True)` with the lineage list passed
explicitly.  There is no `try`/`except`: any fetch exception propagates and
nothing is rendered. -/
def get_table_info (tablesGet : String → TableInfoD)
    (lineageGet : String → Except String LineageDictD)
    (shared : List LineageDictD) (table_names : List String) :
    Except String String × List LineageDictD :=
  match collectTableInfo tablesGet lineageGet table_names with
  | .error e => (.error e, shared)
  | .ok (table_info, lineage_info) =>
    format_table_info shared table_info (some lineage_info) true

/-! ### Concrete fixtures and kernel-reducible text predicates -/

/-- A concrete response whose state is RUNNING (non-terminal) but whose
status carries an error payload. -/
def runningWithError : StatementResponse Nat :=
  { statement_id := "stmt-2",
    status := some ⟨StatementState.running, some ⟨"BAD_REQUEST", "boom"⟩⟩,
    manifest_columns := [], data_array := none }

/-- A minimal table descriptor for concrete batches. -/
def sampleTable (nm : String) : TableInfoD :=
  ⟨nm, "c", "s", nm, some "MANAGED", some "DELTA", none, [], []⟩

/-- A lineage oracle failing for exactly `c.s.a`. -/
def lineageFailingOnA (nm : String) : Except String LineageDictD :=
  if nm = "c.s.a" then .error "HTTPError 500" else .ok (.withEdges [] [])

/-- Structural prefix test on character lists (used to state whether a
marker occurs in a rendered document; kernel-reducible, unlike
`String.splitOn`). -/
def charListIsPrefixOf : List Char → List Char → Bool
  | [], _ => true
  | _ :: _, [] => false
  | c :: cs, d :: ds => c == d && charListIsPrefixOf cs ds

/-- Structural substring test on character lists. -/
def charListContainsSub (sub : List Char) : List Char → Bool
  | [] => sub.isEmpty
  | c :: cs => charListIsPrefixOf sub (c :: cs) || charListContainsSub sub cs

/-- `sub` occurs somewhere in `s`. -/
def strContainsSub (s sub : String) : Bool :=
  charListContainsSub sub.data s.data

/-! ## Helper lemmas about the statement-execution loop -/

theorem executeQueryBody_eq {α : Type} (sid : String) (cols : List String)
    (st : StatementStatus) (da : Option (List (List α))) :
    executeQueryBody (⟨sid, some st, cols, da⟩ : StatementResponse α) =
      (if st.state = StatementState.succeeded then
        match da with
        | some rows =>
          if rows.isEmpty then some ⟨st.state.value, some [], none⟩
          else some ⟨st.state.value,
            some (rows.map fun row => pyDictOfPairs (cols.zip row)), none⟩
        | none => some ⟨st.state.value, some [], none⟩
      else
        match st.error with
        | some e =>
          some ⟨st.state.value, none, some (e.error_code ++ " - " ++ e.message)⟩
        | none => none) := rfl

theorem executeQueryBody_succeeded {α : Type} (sid : String)
    (cols : List String) (err : Option ServiceError) (rows : List (List α)) :
    executeQueryBody
        (⟨sid, some ⟨StatementState.succeeded, err⟩, cols, some rows⟩ :
          StatementResponse α)
      = some ⟨"SUCCEEDED",
          some (rows.map fun row => pyDictOfPairs (cols.zip row)), none⟩ := by
  rw [executeQueryBody_eq]
  rw [if_pos rfl]
  cases rows with
  | nil => rfl
  | cons r rs => rfl

theorem executeQueryBody_nonsucceeded {α : Type} (sid : String)
    (cols : List String) (st : StatementState) (err : Option ServiceError)
    (da : Option (List (List α)))
    (h : st ≠ StatementState.succeeded) :
    executeQueryBody (⟨sid, some ⟨st, err⟩, cols, da⟩ : StatementResponse α)
      = (match err with
        | some e =>
          some ⟨st.value, none, some (e.error_code ++ " - " ++ e.message)⟩
        | none => none) := by
  rw [executeQueryBody_eq]
  exact if_neg h

theorem executeQueryLoop_of_body_none {α : Type}
    (resp : StatementResponse α) (hbody : executeQueryBody resp = none)
    (fuel : Nat) : executeQueryLoop fuel resp = none := by
  induction fuel with
  | zero => rfl
  | succ n ih => simp [executeQueryLoop, hbody, ih]

/-! ## Theorems settling the claims -/

/-! ### C1 — the poll loop never re-fetches -/

/-- C1 (code is wrong): for a submission response whose status is
non-terminal (PENDING or RUNNING) with no error payload, `execute_query`'s
`while True:` loop never returns, no matter how many iterations run: the
body reads only the original response, which is never reassigned, so no
re-fetch by statement id ever happens and no terminal outcome is reached
even though the server would eventually report one. -/
theorem executeQuery_pending_never_terminates {α : Type} (fuel : Nat)
    (sid : String) (cols : List String) (da : Option (List (List α)))
    (st : StatementState)
    (hst : st = StatementState.pending ∨ st = StatementState.running) :
    executeQueryLoop fuel
      ({ statement_id := sid, status := some ⟨st, none⟩,
         manifest_columns := cols, data_array := da } :
        StatementResponse α) = none := by
  refine executeQueryLoop_of_body_none _ ?_ fuel
  rcases hst with h | h <;> subst h <;>
    rw [executeQueryBody_nonsucceeded _ _ _ _ _ (by decide)]

/-- Witness for C1's theorem: 1000 iterations on a concrete PENDING
response still return nothing. -/
theorem executeQuery_pending_never_terminates_witness :
    (StatementState.pending = StatementState.pending ∨
      StatementState.pending = StatementState.running) ∧
    executeQueryLoop 1000
      ({ statement_id := "stmt-1", status := some ⟨StatementState.pending, none⟩,
         manifest_columns := ["id"], data_array := none } :
        StatementResponse Nat) = none :=
  ⟨Or.inl rfl,
   executeQuery_pending_never_terminates 1000 "stmt-1" ["id"] none
     StatementState.pending (Or.inl rfl)⟩

/-! ### C2 — error outcomes are gated on the error field, not on FAILED -/

/-- C2 counterexample: `execute_query` returns an error outcome on the very
first loop iteration for a RUNNING (non-terminal) statement whose status
merely carries an error field — refuting “it never produces an error outcome
from an error field alone while the statement state is still non-terminal”,
and hence the claimed equivalence with the FAILED terminal state. -/
theorem executeQuery_error_on_nonterminal :
    executeQueryLoop 1 runningWithError
      = some ⟨"RUNNING", none, some "BAD_REQUEST - boom"⟩ ∧
    StatementState.running ≠ StatementState.failed := by
  exact ⟨rfl, by decide⟩

/-- C2 as amended: `execute_query` produces an error outcome (carrying
`error_code - message`) iff the status has an error payload AND the state is
not SUCCEEDED — terminal or not.  A FAILED statement never yields a result
set: with an error payload it yields the error outcome, and with no error
payload the loop never returns at all. -/
theorem executeQuery_error_iff_error_field {α : Type}
    (resp : StatementResponse α) (st : StatementStatus)
    (hs : resp.status = some st) :
    ((∃ out, executeQueryBody resp = some out ∧ out.error.isSome) ↔
      (st.error.isSome ∧ st.state ≠ StatementState.succeeded)) ∧
    (st.state = StatementState.failed → ∀ out,
      executeQueryBody resp = some out → out.data = none) ∧
    (∀ e, st.state = StatementState.failed → st.error = some e →
      executeQueryBody resp
        = some ⟨"FAILED", none, some (e.error_code ++ " - " ++ e.message)⟩) ∧
    (st.state = StatementState.failed → st.error = none →
      ∀ fuel, executeQueryLoop fuel resp = none) := by
  obtain ⟨sid, rstatus, cols, da⟩ := resp
  obtain ⟨state, err⟩ := st
  have hs' : rstatus = some ⟨state, err⟩ := hs
  subst hs'
  refine ⟨?_, ?_, ?_, ?_⟩
  · constructor
    · rintro ⟨out, hout, herr⟩
      by_cases hsucc : state = StatementState.succeeded
      · exfalso
        subst hsucc
        rcases da with _ | rows
        · rw [show executeQueryBody
              (⟨sid, some ⟨StatementState.succeeded, err⟩, cols, none⟩ :
                StatementResponse α)
              = some ⟨"SUCCEEDED", some [], none⟩ from rfl] at hout
          cases hout
          simp at herr
        · rw [executeQueryBody_succeeded] at hout
          cases hout
          simp at herr
      · rw [executeQueryBody_nonsucceeded _ _ _ _ _ hsucc] at hout
        rcases herr2 : err with _ | e
        · rw [herr2] at hout
          cases hout
        · exact ⟨by simp [herr2], hsucc⟩
    · rintro ⟨herr, hsucc⟩
      rcases herr2 : err with _ | e
      · rw [herr2] at herr
        simp at herr
      · refine ⟨⟨state.value, none, some (e.error_code ++ " - " ++ e.message)⟩,
          ?_, by simp⟩
        rw [executeQueryBody_nonsucceeded _ _ _ _ _ hsucc, herr2]
  · intro hfail out hout
    subst hfail
    rw [executeQueryBody_nonsucceeded _ _ _ _ _ (by decide)] at hout
    rcases err with _ | e
    · cases hout
    · cases hout
      rfl
  · intro e hfail herr2
    subst hfail
    subst herr2
    rw [executeQueryBody_nonsucceeded _ _ _ _ _ (by decide)]
    rfl
  · intro hfail herr2
    subst hfail
    subst herr2
    intro fuel
    refine executeQueryLoop_of_body_none _ ?_ fuel
    rw [executeQueryBody_nonsucceeded _ _ _ _ _ (by decide)]

/-- Witness for C2's amended theorem, at a concrete FAILED-with-error
response. -/
theorem executeQuery_error_iff_error_field_witness :
    (({ statement_id := "stmt-3",
        status := some ⟨StatementState.failed, some ⟨"SYNTAX_ERROR", "bad sql"⟩⟩,
        manifest_columns := [], data_array := none } :
        StatementResponse Nat).status
      = some ⟨StatementState.failed, some ⟨"SYNTAX_ERROR", "bad sql"⟩⟩) ∧
    ((∃ out, executeQueryBody
        ({ statement_id := "stmt-3",
           status := some ⟨StatementState.failed, some ⟨"SYNTAX_ERROR", "bad sql"⟩⟩,
           manifest_columns := [], data_array := none } :
          StatementResponse Nat) = some out ∧ out.error.isSome) ↔
      ((some (⟨"SYNTAX_ERROR", "bad sql"⟩ : ServiceError)).isSome ∧
        StatementState.failed ≠ StatementState.succeeded)) :=
  ⟨rfl,
   (executeQuery_error_iff_error_field _
      ⟨StatementState.failed, some ⟨"SYNTAX_ERROR", "bad sql"⟩⟩ rfl).1⟩

/-! ### C3 — SUCCEEDED materialization -/

/-- The key set of `dict(zip(names, row))` equals the name set when the row
is at least as long as the declared column list. -/
theorem keys_pyDictOfPairs_zip {α : Type} (names : List String)
    (row : List α) (hlen : names.length ≤ row.length) :
    ((pyDictOfPairs (names.zip row)).map Prod.fst).toFinset
      = names.toFinset := by
  ext a
  simp only [List.mem_toFinset]
  rw [mem_keys_pyDictOfPairs]
  rw [List.map_fst_zip _ _ hlen]

/-- C3 (confirmed): for a SUCCEEDED response with declared manifest columns
`names` and data rows `rows`, each of length `names.length` (including the
`N = 0` and `M = 0` cases), `execute_query` returns
`{"state": "SUCCEEDED", "data": results}` with no error, where `results` has
exactly one record per row, each record the dict zipping the declared
column names against the row in manifest order, so each record's key set is
the declared column-name set; an empty data array yields the same outcome
with an empty data list. -/
theorem executeQuery_succeeded_materialization {α : Type} (sid : String)
    (names : List String) (rows : List (List α)) (err : Option ServiceError)
    (hlen : ∀ r ∈ rows, r.length = names.length) :
    executeQueryLoop 1
        (⟨sid, some ⟨StatementState.succeeded, err⟩, names, some rows⟩ :
          StatementResponse α)
      = some ⟨"SUCCEEDED",
          some (rows.map fun row => pyDictOfPairs (names.zip row)), none⟩ ∧
    (rows.map fun row => pyDictOfPairs (names.zip row)).length = rows.length ∧
    (∀ rec ∈ rows.map fun row => pyDictOfPairs (names.zip row),
      (rec.map Prod.fst).toFinset = names.toFinset) ∧
    (rows = [] →
      executeQueryLoop 1
          (⟨sid, some ⟨StatementState.succeeded, err⟩, names, some rows⟩ :
            StatementResponse α)
        = some ⟨"SUCCEEDED", some [], none⟩) := by
  have hloop : executeQueryLoop 1
      (⟨sid, some ⟨StatementState.succeeded, err⟩, names, some rows⟩ :
        StatementResponse α)
      = some ⟨"SUCCEEDED",
          some (rows.map fun row => pyDictOfPairs (names.zip row)), none⟩ := by
    show (match executeQueryBody
        (⟨sid, some ⟨StatementState.succeeded, err⟩, names, some rows⟩ :
          StatementResponse α) with
      | some out => some out
      | none => executeQueryLoop 0 _) = _
    rw [executeQueryBody_succeeded]
  refine ⟨hloop, List.length_map _ _, ?_, ?_⟩
  · intro rec hrec
    rw [List.mem_map] at hrec
    obtain ⟨row, hrow, hzip⟩ := hrec
    rw [← hzip]
    exact keys_pyDictOfPairs_zip names row (le_of_eq (hlen row hrow).symm)
  · intro hnil
    subst hnil
    exact hloop

/-- Witness for C3's theorem: columns `[id, name]`, rows
`[[1, a], [2, b]]`. -/
theorem executeQuery_succeeded_materialization_witness :
    (∀ r ∈ [["1", "a"], ["2", "b"]],
      List.length r = (["id", "name"] : List String).length) ∧
    executeQueryLoop 1
        (⟨"stmt-4", some ⟨StatementState.succeeded, none⟩, ["id", "name"],
          some [["1", "a"], ["2", "b"]]⟩ : StatementResponse String)
      = some ⟨"SUCCEEDED",
          some ([["1", "a"], ["2", "b"]].map fun row =>
            pyDictOfPairs ((["id", "name"]).zip row)), none⟩ :=
  ⟨by decide,
   (executeQuery_succeeded_materialization "stmt-4" ["id", "name"]
      [["1", "a"], ["2", "b"]] none (by decide)).1⟩

/-! ## Helper lemmas about header resolution -/

theorem oauthTokenRequest_ok {cfg : BaseConfig} {now ei : ℚ} {tk : String}
    (hei : ei ≠ 0) :
    oauthTokenRequest cfg now ⟨true, ⟨some tk, some ei⟩⟩
      = .ok ({ cfg with access_token := some tk,
                        token_expires_at := some (now + ei - 10) }, 1) := by
  simp [oauthTokenRequest, hei]

theorem oauthTokenRequest_ok_no_expiry {cfg : BaseConfig} {now : ℚ}
    {tk : String} :
    oauthTokenRequest cfg now ⟨true, ⟨some tk, none⟩⟩
      = .ok ({ cfg with access_token := some tk,
                        token_expires_at := cfg.token_expires_at }, 1) := by
  simp [oauthTokenRequest]

theorem ensure_oauth_token_cached {host acc sc : Option String}
    {cid cs url tk : String} {e now : ℚ} {resp : TokenEndpointResponse}
    (hlt : now < e) :
    ensure_oauth_token
        ⟨host, acc, none, some cid, some cs, some url, sc, some tk, some e⟩
        now resp
      = .ok (⟨host, acc, none, some cid, some cs, some url, sc,
              some tk, some e⟩, 0) := by
  simp [ensure_oauth_token, hlt]

theorem ensure_oauth_token_expired {host acc sc : Option String}
    {cid cs url tk : String} {e now : ℚ} {resp : TokenEndpointResponse}
    (hge : ¬ now < e) :
    ensure_oauth_token
        ⟨host, acc, none, some cid, some cs, some url, sc, some tk, some e⟩
        now resp
      = oauthTokenRequest
          ⟨host, acc, none, some cid, some cs, some url, sc, some tk, some e⟩
          now resp := by
  simp [ensure_oauth_token, hge]

theorem ensure_oauth_token_no_cached_token {host acc sc : Option String}
    {cid cs url : String} {now : ℚ} {resp : TokenEndpointResponse}
    (ex : Option ℚ) :
    ensure_oauth_token
        ⟨host, acc, none, some cid, some cs, some url, sc, none, ex⟩
        now resp
      = oauthTokenRequest
          ⟨host, acc, none, some cid, some cs, some url, sc, none, ex⟩
          now resp := by
  simp [ensure_oauth_token]

theorem ensure_oauth_token_no_expiry {host acc sc : Option String}
    {cid cs url tk : String} {now : ℚ} {resp : TokenEndpointResponse} :
    ensure_oauth_token
        ⟨host, acc, none, some cid, some cs, some url, sc, some tk, none⟩
        now resp
      = oauthTokenRequest
          ⟨host, acc, none, some cid, some cs, some url, sc, some tk, none⟩
          now resp := by
  simp [ensure_oauth_token]

theorem headersResolve_of_ensure {cfg : BaseConfig} {now : ℚ}
    {resp : TokenEndpointResponse} {cfg' : BaseConfig} {n : Nat} {tk : String}
    (hpat : cfg.pat_token = none)
    (h : ensure_oauth_token cfg now resp = .ok (cfg', n))
    (htk : cfg'.access_token = some tk) :
    headersResolve cfg now resp
      = .ok ([("Authorization", "Bearer " ++ tk),
              ("Content-Type", "application/json")], cfg', n) := by
  unfold headersResolve
  rw [hpat, h]
  show (match cfg'.access_token with
    | some t =>
      Except.ok ([("Authorization", "Bearer " ++ t),
        ("Content-Type", "application/json")], cfg', n)
    | none =>
      Except.error "No authentication token available to build headers") = _
  rw [htk]

/-! ### C4 — the expiry-aware token cache -/

/-- C4 (confirmed): for a client-credentials configuration, a resolution at
time `T` whose token response carries `expires_in = ei` caches the token with
expiry `T + ei - 10`; any second resolution strictly inside that window
issues no token request at all (whatever the endpoint would answer), and a
resolution strictly after the expiry issues exactly one new token request. -/
theorem oauth_cache_reuse_and_refresh (host acc sc : Option String)
    (cid cs url tk tk2 : String) (ei T t2 t3 : ℚ)
    (hei : ei ≠ 0) (h2 : t2 < T + ei - 10) (h3 : T + ei - 10 < t3) :
    headersResolve
        ⟨host, acc, none, some cid, some cs, some url, sc, none, none⟩
        T ⟨true, ⟨some tk, some ei⟩⟩
      = .ok ([("Authorization", "Bearer " ++ tk),
              ("Content-Type", "application/json")],
             ⟨host, acc, none, some cid, some cs, some url, sc,
              some tk, some (T + ei - 10)⟩, 1) ∧
    (∀ resp : TokenEndpointResponse,
      headersResolve
          ⟨host, acc, none, some cid, some cs, some url, sc,
           some tk, some (T + ei - 10)⟩ t2 resp
        = .ok ([("Authorization", "Bearer " ++ tk),
                ("Content-Type", "application/json")],
               ⟨host, acc, none, some cid, some cs, some url, sc,
                some tk, some (T + ei - 10)⟩, 0)) ∧
    headersResolve
        ⟨host, acc, none, some cid, some cs, some url, sc,
         some tk, some (T + ei - 10)⟩ t3 ⟨true, ⟨some tk2, some ei⟩⟩
      = .ok ([("Authorization", "Bearer " ++ tk2),
              ("Content-Type", "application/json")],
             ⟨host, acc, none, some cid, some cs, some url, sc,
              some tk2, some (t3 + ei - 10)⟩, 1) := by
  refine ⟨?_, ?_, ?_⟩
  · refine headersResolve_of_ensure rfl ?_ rfl
    rw [ensure_oauth_token_no_cached_token, oauthTokenRequest_ok hei]
  · intro resp
    exact headersResolve_of_ensure rfl (ensure_oauth_token_cached h2) rfl
  · refine headersResolve_of_ensure rfl ?_ rfl
    rw [ensure_oauth_token_expired (not_lt.2 (le_of_lt h3)),
      oauthTokenRequest_ok hei]

/-- Witness for C4's theorem: `expires_in = 3600` obtained at `T = 0` is
reused at `t2 = 1000 < 3590` with no token request and refreshed with
exactly one request at `t3 = 3591 > 3590`. -/
theorem oauth_cache_reuse_and_refresh_witness :
    ((3600 : ℚ) ≠ 0 ∧ (1000 : ℚ) < 0 + 3600 - 10 ∧
      (0 : ℚ) + 3600 - 10 < 3591) ∧
    headersResolve
        ⟨some "https://h", none, none, some "cid", some "sec",
         some "https://tok", none, none, none⟩
        0 ⟨true, ⟨some "t1", some 3600⟩⟩
      = .ok ([("Authorization", "Bearer " ++ "t1"),
              ("Content-Type", "application/json")],
             ⟨some "https://h", none, none, some "cid", some "sec",
              some "https://tok", none, some "t1", some (0 + 3600 - 10)⟩, 1) :=
  ⟨⟨by norm_num, by norm_num, by norm_num⟩,
   (oauth_cache_reuse_and_refresh (some "https://h") none none "cid" "sec"
      "https://tok" "t1" "t2" 3600 0 1000 3591 (by norm_num) (by norm_num)
      (by norm_num)).1⟩

/-! ### C5 — a token cached without an expiry is refreshed every time -/

/-- C5 counterexample: from a fresh client-credentials configuration, a
resolution at time 100 against an endpoint that returns no `expires_in`
caches `access_token = "t1"` with `token_expires_at = None` — and the NEXT
resolution issues another token request (count 1, not 0), because the
cache-reuse test `self.access_token and self.token_expires_at and ...`
requires a present expiry.  The claim says no subsequent resolution would
issue a request. -/
theorem oauth_no_expiry_refetches :
    headersResolve
        ⟨some "https://h", none, none, some "cid", some "sec",
         some "https://tok", none, none, none⟩
        100 ⟨true, ⟨some "t1", none⟩⟩
      = .ok ([("Authorization", "Bearer " ++ "t1"),
              ("Content-Type", "application/json")],
             ⟨some "https://h", none, none, some "cid", some "sec",
              some "https://tok", none, some "t1", none⟩, 1) ∧
    headersResolve
        ⟨some "https://h", none, none, some "cid", some "sec",
         some "https://tok", none, some "t1", none⟩
        101 ⟨true, ⟨some "t1", none⟩⟩
      = .ok ([("Authorization", "Bearer " ++ "t1"),
              ("Content-Type", "application/json")],
             ⟨some "https://h", none, none, some "cid", some "sec",
              some "https://tok", none, some "t1", none⟩, 1) ∧
    (1 : Nat) ≠ 0 := by
  refine ⟨?_, ?_, by decide⟩
  · refine headersResolve_of_ensure rfl ?_ rfl
    rw [ensure_oauth_token_no_cached_token, oauthTokenRequest_ok_no_expiry]
  · refine headersResolve_of_ensure rfl ?_ rfl
    rw [ensure_oauth_token_no_expiry, oauthTokenRequest_ok_no_expiry]

/-- C5 as amended: when the token response lacks `expires_in`, the token is
cached with `token_expires_at` left `None` — but such a token is treated as
always INVALID, not always valid: every subsequent header resolution issues
exactly one further token request (shown here for an endpoint again
answering without an expiry). -/
theorem oauth_no_expiry_always_refreshes (host acc sc : Option String)
    (cid cs url tk tk2 : String) (now : ℚ) :
    headersResolve
        ⟨host, acc, none, some cid, some cs, some url, sc, some tk, none⟩
        now ⟨true, ⟨some tk2, none⟩⟩
      = .ok ([("Authorization", "Bearer " ++ tk2),
              ("Content-Type", "application/json")],
             ⟨host, acc, none, some cid, some cs, some url, sc,
              some tk2, none⟩, 1) := by
  refine headersResolve_of_ensure rfl ?_ rfl
  rw [ensure_oauth_token_no_expiry, oauthTokenRequest_ok_no_expiry]

/-- Witness for C5's amended theorem at concrete values. -/
theorem oauth_no_expiry_always_refreshes_witness :
    headersResolve
        ⟨some "https://h", none, none, some "cid", some "sec",
         some "https://tok", none, some "t1", none⟩
        500 ⟨true, ⟨some "t9", none⟩⟩
      = .ok ([("Authorization", "Bearer " ++ "t9"),
              ("Content-Type", "application/json")],
             ⟨some "https://h", none, none, some "cid", some "sec",
              some "https://tok", none, some "t9", none⟩, 1) :=
  oauth_no_expiry_always_refreshes (some "https://h") none none "cid" "sec"
    "https://tok" "t1" "t9" 500

/-! ### C6 — caller headers DO override Authorization -/

/-- C6 counterexample: a personal-token configuration produces
`Authorization: Bearer p`, but a caller passing
`headers = ("Authorization", "X")` gets `X` on the wire —
`req_headers.update(headers)` lets the caller win. -/
theorem client_caller_overrides_authorization :
    clientRequest
        ⟨some "https://h", none, some "p", none, none, none, none, none, none⟩
        0 ⟨true, ⟨none, none⟩⟩ "/api/x" (some [("Authorization", "X")])
      = .ok ⟨"https://h" ++ "/api/x",
             [("Authorization", "X"), ("Content-Type", "application/json")]⟩ ∧
    ("X" : String) ≠ "Bearer " ++ "p" :=
  ⟨rfl, by decide⟩

/-- C6 as amended: `DatabricksClient.request` merges with dict-update
semantics in which caller-supplied headers take precedence: the outgoing
`Authorization` value is the caller's Authorization entry when one is
supplied, and only otherwise the credential configuration's
`Bearer` header. -/
theorem client_request_header_merge (p endpoint h : String)
    (acc : Option String) (now : ℚ) (tokResp : TokenEndpointResponse)
    (caller : List (String × String)) :
    ∃ req : OutgoingRequest,
      clientRequest
          ⟨some h, acc, some p, none, none, none, none, none, none⟩
          now tokResp endpoint (some caller) = .ok req ∧
      req.url = h ++ endpoint ∧
      req.req_headers.lookup "Authorization"
        = (lastVal "Authorization" caller).or (some ("Bearer " ++ p)) := by
  refine ⟨⟨h ++ endpoint,
    pyDictUpdate [("Authorization", "Bearer " ++ p),
      ("Content-Type", "application/json")] caller⟩, rfl, rfl, ?_⟩
  rw [lookup_pyDictUpdate]
  rw [lookup_cons_key "Authorization" "Authorization" ("Bearer " ++ p) _ rfl]

/-- Witness for C6's amended theorem: with no caller Authorization entry the
config's bearer header goes out; `lastVal` of the lone `Accept` entry is
`none`. -/
theorem client_request_header_merge_witness :
    ∃ req : OutgoingRequest,
      clientRequest
          ⟨some "https://h", none, some "p", none, none, none, none, none, none⟩
          0 ⟨true, ⟨none, none⟩⟩ "/api/x" (some [("Accept", "text/plain")])
        = .ok req ∧
      req.url = "https://h" ++ "/api/x" ∧
      req.req_headers.lookup "Authorization"
        = (lastVal "Authorization" [("Accept", "text/plain")]).or
            (some ("Bearer " ++ "p")) :=
  client_request_header_merge "p" "/api/x" "https://h" none 0
    ⟨true, ⟨none, none⟩⟩ [("Accept", "text/plain")]

/-! ### C7 — a lineage failure aborts the whole describe-tables batch -/

/-- C7 counterexample: with two requested tables `c.s.b, c.s.a` and the
lineage fetch failing only for the second, `get_table_info` yields no
document at all — the first table's metadata and lineage (both fetched
successfully) contribute nothing, and no per-item error is attached
anywhere; the raised exception aborts the batch. -/
theorem describe_tables_abort_example :
    (get_table_info sampleTable lineageFailingOnA [] ["c.s.b", "c.s.a"]).1
      = .error "HTTPError 500" := rfl

/-- The fetch loop fails as soon as any requested table's lineage fetch
fails. -/
theorem collectTableInfo_error (tg : String → TableInfoD)
    (lg : String → Except String LineageDictD) (names : List String)
    (n : String) (err : String) (hmem : n ∈ names)
    (herr : lg n = .error err) :
    ∃ e, collectTableInfo tg lg names = .error e := by
  induction names with
  | nil => cases hmem
  | cons m ms ih =>
    rcases hok : lg m with e' | l
    · exact ⟨e', by simp [collectTableInfo, hok]⟩
    · rcases List.mem_cons.1 hmem with rfl | hmem'
      · rw [hok] at herr
        cases herr
      · obtain ⟨e, he⟩ := ih hmem'
        exact ⟨e, by simp [collectTableInfo, hok, he]⟩

/-- C7 as amended: when the lineage fetch for any requested table fails, the
exception propagates out of `get_table_info` and aborts the whole batch — no
per-item error is carried and no other table contributes anything (there is
no document to contribute to); the shared formatter state is untouched. -/
theorem describe_tables_lineage_failure_aborts (tg : String → TableInfoD)
    (lg : String → Except String LineageDictD) (shared : List LineageDictD)
    (names : List String) (n : String) (err : String)
    (hmem : n ∈ names) (herr : lg n = .error err) :
    (∃ e, (get_table_info tg lg shared names).1 = .error e) ∧
    (get_table_info tg lg shared names).2 = shared := by
  obtain ⟨e, he⟩ := collectTableInfo_error tg lg names n err hmem herr
  refine ⟨⟨e, ?_⟩, ?_⟩ <;> simp [get_table_info, he]

/-- Witness for C7's amended theorem at the concrete failing batch. -/
theorem describe_tables_lineage_failure_aborts_witness :
    (("c.s.a" : String) ∈ ["c.s.b", "c.s.a"] ∧
      lineageFailingOnA "c.s.a" = .error "HTTPError 500") ∧
    ((∃ e, (get_table_info sampleTable lineageFailingOnA []
        ["c.s.b", "c.s.a"]).1 = .error e) ∧
      (get_table_info sampleTable lineageFailingOnA []
        ["c.s.b", "c.s.a"]).2 = []) :=
  ⟨⟨by decide, rfl⟩,
   describe_tables_lineage_failure_aborts sampleTable lineageFailingOnA []
     ["c.s.b", "c.s.a"] "c.s.a" "HTTPError 500" (by decide) rfl⟩

/-! ### C8 — zero columns: no Schema section, but a "No constraints" marker -/

/-- C8 counterexample: rendering a table with zero columns and zero
constraints in detailed mode yields a document that contains NO "No columns"
marker and NO "### Schema" header (the schema section is skipped by
`if table.columns:` before the "No columns defined." marker could ever be
emitted), while "No constraints" and "### Constraints" ARE present — so the
claimed "no columns" marker and its section header are missing. -/
theorem render_zero_columns_no_marker :
    (format_single_table
        ⟨"c.s.t", "c", "s", "t", some "MANAGED", some "DELTA", none, [], []⟩
        LineageDictD.emptyDict).map
        (fun s => (strContainsSub s "No columns",
                   strContainsSub s "### Schema",
                   strContainsSub s "No constraints",
                   strContainsSub s "### Constraints"))
      = .ok (false, false, true, true) := by
  set_option maxRecDepth 10000 in rfl

/-- C8 as amended: on a table with zero columns and zero constraints (and no
lineage), detailed rendering emits the header block, then NO schema section
at all — neither a "### Schema" header nor a "no columns" marker — and then
an explicit `### Constraints` header with the explicit "No constraints"
marker (plus the lineage section's marker). -/
theorem render_zero_columns_zero_constraints (fn cat sch nm tt ds : String)
    (cm : Option String) :
    format_single_table
        ⟨fn, cat, sch, nm, some tt, some ds, cm, [], []⟩
        LineageDictD.emptyDict
      = .ok (String.intercalate "\n"
          ["## Table Info",
           "**Name:** `" ++ fn ++ "`",
           "**Type:** `" ++ tt ++ "`",
           "**Data Format:** `" ++ ds ++ "`",
           "**Description:** " ++ cm.getD "No description",
           "",
           "### Constraints",
           "No constraints",
           "",
           "### Lineage",
           "No lineage information",
           ""]) := rfl

/-! ### C9 — the schema listing returns an absent value -/

/-- C9 (code is wrong): for EVERY catalog and every schema listing the
catalog returns, `get_schemas_in_catalog` returns `None` — the fetched
`schema_info` is discarded, `output = None` is returned, and no Markdown
text document is ever produced. -/
theorem list_schemas_returns_none
    (listSchemas : String → List SchemaInfoD) (catalog : String) :
    get_schemas_in_catalog listSchemas catalog = none := rfl

/-! ### C10 — the shared mutable default of `format_table_info` -/

theorem map_const_eq_replicate {α β : Type} (l : List α) (b : β) :
    (l.map fun _ => b) = List.replicate l.length b := by
  induction l with
  | nil => rfl
  | cons x xs ih => simp [List.replicate_succ, ih]

/-- After a successful call that omitted `lineage_info` with a non-empty
table list, the shared default list has exactly one entry per table and in
particular is non-empty. -/
theorem format_table_info_shared_after (shared : List LineageDictD)
    (t1 : List TableInfoD) (e1 : Bool) (d : String) (h1 : t1 ≠ [])
    (hok : (format_table_info shared t1 none e1).1 = .ok d) :
    (format_table_info shared t1 none e1).2.length = t1.length ∧
    (format_table_info shared t1 none e1).2 ≠ [] := by
  have ht1 : t1.isEmpty = false := List.isEmpty_eq_false.2 h1
  show (formatTableInfoCore t1 shared e1).2.length = t1.length ∧
    (formatTableInfoCore t1 shared e1).2 ≠ []
  have hok' : (formatTableInfoCore t1 shared e1).1 = .ok d := hok
  by_cases hsh : shared.isEmpty
  · have hshared : shared = [] := List.isEmpty_eq_true.1 hsh
    subst hshared
    unfold formatTableInfoCore
    simp only [ht1, Bool.false_eq_true, if_false, List.isEmpty_nil,
      not_true, if_pos, if_true]
    constructor
    · simp
    · simp [h1]
  · have hshne : shared ≠ [] := fun h => by
      rw [h] at hsh
      exact hsh rfl
    unfold formatTableInfoCore at hok' ⊢
    simp only [ht1, Bool.false_eq_true, if_false] at hok' ⊢
    rw [if_pos (by simpa using hshne)] at hok' ⊢
    by_cases hlen : t1.length = shared.length
    · rw [if_pos hlen] at hok' ⊢
      exact ⟨hlen.symm, hshne⟩
    · rw [if_neg hlen] at hok'
      cases hok'

/-- C10 as amended: the default `lineage_info=[]` is one shared list.  A call
that OMITS the argument with non-empty `table_info` leaves the default with
one entry per table (appending one empty dict per table when it was empty);
so two successive omitting calls with non-empty table lists of different
lengths make the second one fail its length assertion and raise
`AssertionError` instead of returning a document.  (A call passing its OWN
empty list mutates that list, not the shared default — see the
counterexample.) -/
theorem format_table_info_mutable_default (shared : List LineageDictD)
    (t1 t2 : List TableInfoD) (e1 e2 : Bool) (d : String)
    (h1 : t1 ≠ []) (h2 : t2 ≠ []) (hlen : t1.length ≠ t2.length)
    (hok : (format_table_info shared t1 none e1).1 = .ok d) :
    (format_table_info (format_table_info shared t1 none e1).2 t2 none e2).1
      = .error "AssertionError: table info and lineage info length mismatch" ∧
    (shared = [] → (format_table_info shared t1 none e1).2
      = List.replicate t1.length LineageDictD.emptyDict) := by
  obtain ⟨hlen1, hne1⟩ := format_table_info_shared_after shared t1 e1 d h1 hok
  constructor
  · have ht2 : t2.isEmpty = false := List.isEmpty_eq_false.2 h2
    show (formatTableInfoCore t2 (format_table_info shared t1 none e1).2
      e2).1 = _
    unfold formatTableInfoCore
    simp only [ht2, Bool.false_eq_true, if_false]
    rw [if_pos (by simpa using hne1)]
    rw [if_neg (by rw [hlen1]; exact fun h => hlen h.symm)]
  · intro hshared
    subst hshared
    have ht1 : t1.isEmpty = false := List.isEmpty_eq_false.2 h1
    show (formatTableInfoCore t1 [] e1).2 = _
    unfold formatTableInfoCore
    simp only [ht1, Bool.false_eq_true, if_false, List.isEmpty_nil,
      not_true, if_true]
    simp [map_const_eq_replicate]

/-- Witness for C10's amended theorem: a first omitting call with one table
succeeds and leaves one empty dict in the shared default; a second omitting
call with two tables then raises the `AssertionError`. -/
theorem format_table_info_mutable_default_witness :
    (([sampleTable "t"] : List TableInfoD) ≠ [] ∧
      ([sampleTable "a", sampleTable "b"] : List TableInfoD) ≠ [] ∧
      ([sampleTable "t"] : List TableInfoD).length
        ≠ ([sampleTable "a", sampleTable "b"] : List TableInfoD).length ∧
      (format_table_info [] [sampleTable "t"] none false).1
        = .ok "# List of tables in `c.s`\n\n*Number of Tables*: 1\n\n## Table names:\n\nt\n") ∧
    ((format_table_info (format_table_info [] [sampleTable "t"] none false).2
        [sampleTable "a", sampleTable "b"] none false).1
      = .error "AssertionError: table info and lineage info length mismatch" ∧
     (([] : List LineageDictD) = [] →
       (format_table_info [] [sampleTable "t"] none false).2
         = List.replicate ([sampleTable "t"] : List TableInfoD).length
             LineageDictD.emptyDict)) :=
  ⟨⟨by simp, by simp, by decide, rfl⟩,
   format_table_info_mutable_default [] [sampleTable "t"]
     [sampleTable "a", sampleTable "b"] false false
     "# List of tables in `c.s`\n\n*Number of Tables*: 1\n\n## Table names:\n\nt\n"
     (by simp) (by simp) (by decide) rfl⟩

/-- C10 counterexample: a call that PASSES an empty list (as
`get_tables_in_schema` does) extends the passed list, not the shared
default: with the default empty and one table, the default stays `[]`
rather than gaining the one-empty-mapping-per-table the claim asserts. -/
theorem format_table_info_explicit_empty_list :
    (format_table_info [] [sampleTable "t"] (some []) false).2 = [] ∧
    ([] : List LineageDictD) ≠ [LineageDictD.emptyDict] :=
  ⟨rfl, by decide⟩

end DatabricksMCP
